import Mathlib

/-!
Verification development for the Blindfold client repository.

This file gives a shallow embedding of the core client logic:

* the client-side detokenizer of the JS SDK
  (`packages/js-sdk/src/client.ts`, `Blindfold.detokenize`),
  including a faithful model of ECMAScript `String.prototype.replace`
  with a string replacement argument (`GetSubstitution` semantics for
  `$$`, `$&`, dollar-backtick and dollar-quote) and of the token
  escaping `token.replace(/[.*+?^${}()|[\]\\]/g, quoted-dollar-amp)`;
* the SDK's resilient request executor
  (`Blindfold.request` and `Blindfold.retryWait` in the same file),
  modelled as a deterministic function of a per-attempt transport
  oracle and a per-attempt randomness oracle;
* the single-shot request helpers of the CLI
  (`packages/cli/src/lib/api.ts`, `createApiRequest`) and of the MCP
  server (`createApiRequest` in the MCP server's `api.ts`), together
  with the error classes they throw
  (`packages/cli/src/lib/errors.ts` and plain `Error` for MCP);
* the CLI `detokenize` command action and the MCP
  `blindfold_detokenize` tool handler, both of which post
  `{text, mapping}` to the remote `/detokenize` endpoint.

Modelling conventions: JS strings are `String`/`List Char` (JS
`.length` is the code-unit count; for the BMP strings in all claims it
agrees with `List.length`); JS numbers appearing in retry arithmetic
are `ℚ`; `Math.random()` is an explicit oracle argument in `[0,1)`;
an HTTP response body is abstracted to the fields the client actually
inspects (the numeric `retry_after` hint for the SDK, the extracted
detail/text string for CLI/MCP); a JS object used as a token mapping
is an association list in key insertion order with distinct keys.
-/

/-! ## Characters that are special somewhere

Named characters, to keep the source text free of delimiter glyphs. -/

/-- Left curly brace character. -/
def lcurly : Char := Char.ofNat 123

/-- Right curly brace character. -/
def rcurly : Char := Char.ofNat 125

/-- Backquote character (code 96). -/
def backquoteChar : Char := Char.ofNat 96

/-- Single straight quote character (code 39). -/
def quoteChar : Char := Char.ofNat 39

/-- The character class of `token.replace(/[.*+?^${}()|[\]\\]/g, ...)` in
`Blindfold.detokenize`: exactly the ECMAScript regular-expression syntax
characters. -/
def isSyntaxChar (c : Char) : Bool :=
  c = '.' || c = '*' || c = '+' || c = '?' || c = '^' || c = '$' ||
  c = lcurly || c = rcurly || c = '(' || c = ')' || c = '|' ||
  c = '[' || c = ']' || c = '\\'

/-- Embedding of the token-escaping step of `Blindfold.detokenize`
(client.ts line 209): every regular-expression syntax character of the
token is preceded by a backslash, all other characters pass through. -/
def escapeRegExp : List Char → List Char
  | [] => []
  | c :: rest =>
    if isSyntaxChar c then '\\' :: c :: escapeRegExp rest
    else c :: escapeRegExp rest

/-- Interpretation of a regular-expression pattern string that is a pure
literal: `some cs` when the pattern consists only of non-syntax
characters and identity escapes of syntax characters, in which case the
pattern matches exactly the literal character sequence `cs`; `none` when
the pattern contains a character that the regular-expression engine
would treat as syntax. -/
def literalPatternChars : List Char → Option (List Char)
  | [] => some []
  | [c] => if c = '\\' ∨ isSyntaxChar c then none else some [c]
  | c :: d :: rest =>
    if c = '\\' then
      if isSyntaxChar d then (literalPatternChars rest).map (d :: ·) else none
    else if isSyntaxChar c then none
    else (literalPatternChars (d :: rest)).map (c :: ·)

/-! ## ECMAScript replacement semantics

`Blindfold.detokenize` calls `result.replace(regex, originalValue)` with
a global regex that (after escaping) matches the literal token, and with
the raw mapped value as the replacement string.  `splitGo`/`splitTok`
compute the chunks of the subject between the leftmost non-overlapping
literal occurrences of the token; `getSubstitution` is ECMAScript's
GetSubstitution for a match with no capture groups (`$$`, `$&`,
dollar-backquote and dollar-quote are special, everything else is
literal); `replaceGo` reassembles the subject. -/

/-- Split a subject string at the leftmost non-overlapping occurrences of
the (non-empty) token `tok`, fuelled by the subject length.  The result
is the list of chunks between occurrences; `chunks.length - 1` is the
number of matches of the global regex. -/
def splitGo (tok : List Char) : Nat → List Char → List (List Char)
  | _, [] => [[]]
  | 0, s => [s]
  | fuel + 1, c :: rest =>
    if tok.isPrefixOf (c :: rest) then
      [] :: splitGo tok fuel (List.drop tok.length (c :: rest))
    else
      match splitGo tok fuel rest with
      | [] => [[c]]
      | chunk :: chunks => (c :: chunk) :: chunks

/-- Chunks of `s` between the matches of the literal token `tok`, for an
arbitrary token.  The empty token matches at every position (the
behaviour of an empty ECMAScript global regex), giving `s.length + 1`
matches. -/
def splitTok (tok s : List Char) : List (List Char) :=
  match tok with
  | [] => [] :: (s.map fun c => [c]) ++ [[]]
  | _ :: _ => splitGo tok s.length s

/-- Number of matches found by `result.match(regex)` in
`Blindfold.detokenize`, i.e. `matches.length` (with `0` for a `null`
result). -/
def countMatches (tok s : List Char) : Nat := (splitTok tok s).length - 1

/-- ECMAScript GetSubstitution for a match of a regex with no capture
groups: in the replacement string, `$$` yields a dollar sign, `$&`
yields the matched substring, dollar-backquote yields the part of the
subject before the match, dollar-quote yields the part after the match,
and any other use of the dollar sign is literal. -/
def getSubstitution (matched before after : List Char) : List Char → List Char
  | [] => []
  | ['$'] => ['$']
  | '$' :: d :: rest2 =>
    if d = '$' then '$' :: getSubstitution matched before after rest2
    else if d = '&' then matched ++ getSubstitution matched before after rest2
    else if d = backquoteChar then before ++ getSubstitution matched before after rest2
    else if d = quoteChar then after ++ getSubstitution matched before after rest2
    else '$' :: getSubstitution matched before after (d :: rest2)
  | c :: rest => c :: getSubstitution matched before after rest

/-- Reassemble the subject from its chunks, inserting the substituted
replacement value at each match.  `pre` is the already-consumed part of
the original subject (needed because dollar-backquote and dollar-quote
refer to the subject the `replace` call was made on). -/
def replaceGo (tok val : List Char) : List Char → List (List Char) → List Char
  | _, [] => []
  | _, [chunk] => chunk
  | pre, chunk :: rest =>
    chunk ++ getSubstitution tok (pre ++ chunk) (List.intercalate tok rest) val
          ++ replaceGo tok val (pre ++ chunk ++ tok) rest

/-- Embedding of `result.replace(new RegExp(escaped-token, 'g'),
originalValue)`: replace every leftmost non-overlapping literal
occurrence of `tok` in `s` by the GetSubstitution expansion of `val`. -/
def jsReplaceAll (tok val s : List Char) : List Char :=
  replaceGo tok val [] (splitTok tok s)

/-! ## The SDK detokenizer (`Blindfold.detokenize`, client.ts 200-222) -/

/-- Result value of `Blindfold.detokenize` (`DetokenizeResponse` in
`packages/js-sdk/src/types.ts`). -/
structure DetokenizeResponse where
  text : String
  replacements_made : Nat
deriving DecidableEq, Repr

namespace Blindfold

/-- The token order used by `Blindfold.detokenize` (client.ts 205):
`Object.keys(mapping).sort((a, b) => b.length - a.length)` — a stable
sort of the keys in insertion order by descending length.  Stable
insertion sort with the relation `b.length ≤ a.length` is exactly the
stable descending-length sort the comparator induces. -/
def sortedTokens (keys : List String) : List String :=
  List.insertionSort (fun a b => b.length ≤ a.length) keys

/-- Body of the per-token loop of `Blindfold.detokenize`
(client.ts 207-216): look the token up in the mapping, count the matches
of the escaped-token regex in the working text, and when there is at
least one match replace all of them and add the match count. -/
def detokenizeStep (mapping : List (String × String)) (st : List Char × Nat)
    (token : String) : List Char × Nat :=
  let originalValue := (List.lookup token mapping).getD ""
  let n := countMatches token.data st.1
  if n = 0 then st
  else (jsReplaceAll token.data originalValue.data st.1, st.2 + n)

/-- Embedding of `Blindfold.detokenize` (client.ts 200-222): fold the
per-token replacement over the mapping's keys sorted by descending
length, starting from the input text and a zero count. -/
def detokenize (text : String) (mapping : List (String × String)) : DetokenizeResponse :=
  let acc := (sortedTokens (mapping.map Prod.fst)).foldl (detokenizeStep mapping) (text.data, 0)
  ⟨⟨acc.1⟩, acc.2⟩

/-! ## The SDK request executor (`Blindfold.request`, client.ts 84-158) -/

/-- The retryable status set `RETRYABLE_STATUS_CODES` (client.ts 23). -/
def RETRYABLE_STATUS_CODES : List Nat := [429, 500, 502, 503, 504]

/-- `response.ok`: status in the inclusive range 200-299. -/
def statusOk (s : Nat) : Bool := 200 ≤ s && s ≤ 299

/-- Outcome of one `fetch` attempt, as the executor observes it.
`response` is an HTTP response (its error body abstracted to the numeric
`retry_after` hint the executor reads, its success body to the decoded
value); `typeErrorFetch` is a rejection with a `TypeError` whose message
mentions `fetch`; `thrownNetworkError` is a rejection that is already a
`NetworkError`; `thrownOther` is any other rejection (also covering a
failing success-body decode). -/
inductive FetchResult (V : Type) where
  | response (status : Nat) (retryAfter : Option ℚ) (value : V)
  | typeErrorFetch (msg : String)
  | thrownNetworkError (msg : String)
  | thrownOther (msg : String)
deriving DecidableEq, Repr

/-- The SDK error taxonomy (`packages/js-sdk/src/errors.ts`), with each
kind carrying the data the executor control flow distinguishes:
`APIError` its status code and the `retry_after` hint of its response
body, `NetworkError` its message. -/
inductive SdkError where
  | authentication
  | api (statusCode : Nat) (retryAfter : Option ℚ)
  | network (msg : String)
deriving DecidableEq, Repr

/-- Backoff wait of `Blindfold.retryWait` (client.ts 58-60), in
milliseconds: `delay = retryDelay * 2 ** attempt * 1000` plus the jitter
`delay * 0.1 * Math.random()`, with the random draw `rand` passed in
explicitly. -/
def backoffDelay (retryDelay rand : ℚ) (attempt : Nat) : ℚ :=
  let delay := retryDelay * 2 ^ attempt * 1000
  delay + delay * (1 / 10) * rand

/-- Embedding of `Blindfold.retryWait` (client.ts 51-61), in
milliseconds.  `err` is `some (statusCode, retryAfter)` when the failed
attempt threw an `APIError` (with the response body abstracted to its
numeric `retry_after` field), `none` for a network failure.  A 429 with
a numeric hint returns `retry_after * 1000`; every other case falls
through to the jittered exponential backoff. -/
def retryWait (retryDelay rand : ℚ) (attempt : Nat) (err : Option (Nat × Option ℚ)) : ℚ :=
  match err with
  | some info =>
    if info.1 = 429 then
      match info.2 with
      | some r => r * 1000
      | none => backoffDelay retryDelay rand attempt
    else backoffDelay retryDelay rand attempt
  | none => backoffDelay retryDelay rand attempt

/-- Observable result of one `Blindfold.request` call: how many transport
attempts were made, the sequence of backoff waits (milliseconds) slept
between consecutive attempts, and the terminal outcome. -/
structure RunResult (V : Type) where
  attempts : Nat
  waits : List ℚ
  result : Except SdkError V
deriving Repr

/-- The retry loop of `Blindfold.request` (client.ts 84-158).  `attempt`
is the current attempt index; `fuel` is `maxRetries + 1 - attempt`, the
number of loop iterations still permitted (the `fuel = 0` fallback is
the dead `throw lastError` after the loop).  Each iteration classifies
the transport outcome exactly as the source: 401/403 throws
`AuthenticationError` immediately; any other non-2xx status throws
`APIError`, retried with a backoff sleep only while the status is
retryable and `attempt < maxRetries`; a fetch `TypeError` mentioning
`fetch` and a thrown `NetworkError` are retried the same way; any other
rejection is rethrown as a non-retried `NetworkError`. -/
def requestGo {V : Type} (maxRetries : Nat) (retryDelay : ℚ)
    (transport : Nat → FetchResult V) (rand : Nat → ℚ) :
    Nat → Nat → RunResult V
  | attempt, 0 => ⟨attempt, [], Except.error (SdkError.network "Request failed")⟩
  | attempt, fuel + 1 =>
    match transport attempt with
    | FetchResult.response status retryAfter value =>
      if status = 401 ∨ status = 403 then
        ⟨attempt + 1, [], Except.error SdkError.authentication⟩
      else if statusOk status = false then
        if status ∈ RETRYABLE_STATUS_CODES ∧ attempt < maxRetries then
          let w := retryWait retryDelay (rand attempt) attempt (some (status, retryAfter))
          let r := requestGo maxRetries retryDelay transport rand (attempt + 1) fuel
          ⟨r.attempts, w :: r.waits, r.result⟩
        else
          ⟨attempt + 1, [], Except.error (SdkError.api status retryAfter)⟩
      else
        ⟨attempt + 1, [], Except.ok value⟩
    | FetchResult.typeErrorFetch _ =>
      if attempt < maxRetries then
        let w := retryWait retryDelay (rand attempt) attempt none
        let r := requestGo maxRetries retryDelay transport rand (attempt + 1) fuel
        ⟨r.attempts, w :: r.waits, r.result⟩
      else
        ⟨attempt + 1, [],
          Except.error (SdkError.network
            "Network request failed. Please check your connection and the API URL.")⟩
    | FetchResult.thrownNetworkError msg =>
      if attempt < maxRetries then
        let w := retryWait retryDelay (rand attempt) attempt none
        let r := requestGo maxRetries retryDelay transport rand (attempt + 1) fuel
        ⟨r.attempts, w :: r.waits, r.result⟩
      else
        ⟨attempt + 1, [], Except.error (SdkError.network msg)⟩
    | FetchResult.thrownOther msg =>
      ⟨attempt + 1, [], Except.error (SdkError.network msg)⟩

/-- Embedding of one `Blindfold.request` call: run the retry loop from
attempt 0 with `maxRetries + 1` permitted iterations. -/
def request {V : Type} (maxRetries : Nat) (retryDelay : ℚ)
    (transport : Nat → FetchResult V) (rand : Nat → ℚ) : RunResult V :=
  requestGo maxRetries retryDelay transport rand 0 (maxRetries + 1)

/-- An attempt outcome that the executor classifies as retryable: a
response with a status in the retryable set, a fetch `TypeError`
mentioning `fetch`, or a thrown `NetworkError`. -/
def retryableOutcome {V : Type} : FetchResult V → Prop
  | FetchResult.response s _ _ => s ∈ RETRYABLE_STATUS_CODES
  | FetchResult.typeErrorFetch _ => True
  | FetchResult.thrownNetworkError _ => True
  | FetchResult.thrownOther _ => False

instance {V : Type} (o : FetchResult V) : Decidable (retryableOutcome o) := by
  cases o <;> simp only [retryableOutcome] <;> infer_instance

/-- The classified error the executor throws when an attempt with this
outcome is terminal (mirrors the throw sites of client.ts 93-153). -/
def classifyFailure {V : Type} : FetchResult V → SdkError
  | FetchResult.response s retryAfter _ =>
    if s = 401 ∨ s = 403 then SdkError.authentication else SdkError.api s retryAfter
  | FetchResult.typeErrorFetch _ =>
    SdkError.network "Network request failed. Please check your connection and the API URL."
  | FetchResult.thrownNetworkError msg => SdkError.network msg
  | FetchResult.thrownOther msg => SdkError.network msg

end Blindfold

/-! ## The CLI and MCP single-shot request helpers -/

/-- The kinds of the cross-surface error taxonomy, for inspecting which
class of error a surface throws. -/
inductive ErrorKind where
  | authentication
  | apiError
  | network
  | config
  | input
  | generic
deriving DecidableEq, Repr

/-- A thrown error, tagged with its class: the five `BlindfoldError`
subclasses of `packages/cli/src/lib/errors.ts` (`AuthenticationError`,
`APIError` with its `statusCode`, `NetworkError`, `ConfigError`,
`InputError`) plus `generic` for a plain JS `Error`. -/
inductive ThrownError where
  | authentication (msg : String)
  | apiError (msg : String) (statusCode : Nat)
  | network (msg : String)
  | config (msg : String)
  | input (msg : String)
  | generic (msg : String)
deriving DecidableEq, Repr

/-- The kind tag of a thrown error. -/
def ThrownError.kind : ThrownError → ErrorKind
  | ThrownError.authentication _ => ErrorKind.authentication
  | ThrownError.apiError _ _ => ErrorKind.apiError
  | ThrownError.network _ => ErrorKind.network
  | ThrownError.config _ => ErrorKind.config
  | ThrownError.input _ => ErrorKind.input
  | ThrownError.generic _ => ErrorKind.generic

/-- The kind of the error of a failed result, `none` on success. -/
def resultKind {V : Type} : Except ThrownError V → Option ErrorKind
  | Except.error e => some e.kind
  | Except.ok _ => none

/-- Outcome of the single `fetch` of a CLI or MCP `apiRequest` call:
either a response whose body is abstracted to the detail/text string the
surface extracts from it (with the decoded value for the 2xx case), or a
rejected fetch with its error message. -/
inductive SingleFetchResult (V : Type) where
  | response (status : Nat) (bodyDetail : String) (value : V)
  | fetchThrew (msg : String)
deriving DecidableEq, Repr

/-- Default message of the CLI `AuthenticationError`
(`packages/cli/src/lib/errors.ts` line 10). -/
def cliAuthMessage : String := "Authentication failed. Check your API key."

/-- Classification performed by the CLI `apiRequest`
(`packages/cli/src/lib/api.ts`, `createApiRequest`): a rejected fetch
becomes a `NetworkError`; 401/403 becomes an `AuthenticationError`; any
other non-2xx becomes an `APIError` carrying the extracted detail and
the status code; 2xx returns the decoded body. -/
def cliApiRequest {V : Type} : SingleFetchResult V → Except ThrownError V
  | SingleFetchResult.fetchThrew msg => Except.error (ThrownError.network msg)
  | SingleFetchResult.response s detail v =>
    if s = 401 ∨ s = 403 then Except.error (ThrownError.authentication cliAuthMessage)
    else if Blindfold.statusOk s = false then
      Except.error (ThrownError.apiError detail s)
    else Except.ok v

/-- Classification performed by the MCP server's `apiRequest`
(`createApiRequest` in the MCP server's `api.ts`): there is no try/catch
and no status-specific branch — a rejected fetch propagates as-is, and
every non-2xx status throws a plain
`Error` with the status interpolated into the message. -/
def mcpApiRequest {V : Type} : SingleFetchResult V → Except ThrownError V
  | SingleFetchResult.fetchThrew msg => Except.error (ThrownError.generic msg)
  | SingleFetchResult.response s errText v =>
    if Blindfold.statusOk s = false then
      Except.error (ThrownError.generic
        ("Blindfold API error (" ++ toString s ++ "): " ++ errText))
    else Except.ok v

/-- Observable behaviour of one surface-level `apiRequest` invocation:
the number of `fetch` calls performed, the backoff waits slept, and the
outcome. -/
structure SurfaceRun (V : Type) where
  fetchCalls : Nat
  waits : List ℚ
  result : Except ThrownError V
deriving Repr

/-- One invocation of the CLI `apiRequest` over a transport oracle: the
body of `createApiRequest` is straight-line — it performs the single
`fetch` (attempt 0 of the oracle), classifies it, and finishes; there is
no loop and no sleep. -/
def cliApiRequestRun {V : Type} (transport : Nat → SingleFetchResult V) : SurfaceRun V :=
  ⟨1, [], cliApiRequest (transport 0)⟩

/-- One invocation of the MCP server's `apiRequest` over a transport
oracle: likewise a single `fetch` with no loop and no sleep. -/
def mcpApiRequestRun {V : Type} (transport : Nat → SingleFetchResult V) : SurfaceRun V :=
  ⟨1, [], mcpApiRequest (transport 0)⟩

/-! ## The detokenize surfaces -/

/-- The JSON body `{ text, mapping }` posted to `/detokenize` by the CLI
command and the MCP tool. -/
structure DetokenizeRequestBody where
  text : String
  mapping : List (String × String)
deriving DecidableEq, Repr

/-- Observable behaviour of one detokenize-surface invocation: the
`(endpoint, body)` of each API transport call made, and the outcome. -/
structure CommandRun (V : Type) where
  transportCalls : List (String × DetokenizeRequestBody)
  result : Except ThrownError V
deriving Repr

/-- The SDK surface: `Blindfold.detokenize` is a plain synchronous
method — it makes no transport call and returns the local algorithm's
result. -/
def sdkDetokenizeRun (text : String) (mapping : List (String × String)) :
    CommandRun DetokenizeResponse :=
  ⟨[], Except.ok (Blindfold.detokenize text mapping)⟩

/-- The CLI `detokenize` command action (`registerDetokenizeCommand` in
the CLI's `commands/detokenize.ts`), after input and mapping resolution:
it performs `await api<DetokenizeResponse>('/detokenize', { text,
mapping })` — one transport call to the remote `/detokenize` endpoint,
whose classified outcome is the command's result. -/
def cliDetokenizeCommand (inputText : String) (mapping : List (String × String))
    (transport : Nat → SingleFetchResult DetokenizeResponse) :
    CommandRun DetokenizeResponse :=
  ⟨[("/detokenize", ⟨inputText, mapping⟩)], cliApiRequest (transport 0)⟩

/-- The MCP `blindfold_detokenize` tool handler (MCP server `server.ts`):
it performs `await apiRequest('/detokenize', { text, mapping })` — one
transport call to the remote `/detokenize` endpoint. -/
def mcpDetokenizeTool (text : String) (mapping : List (String × String))
    (transport : Nat → SingleFetchResult DetokenizeResponse) :
    CommandRun DetokenizeResponse :=
  ⟨[("/detokenize", ⟨text, mapping⟩)], mcpApiRequest (transport 0)⟩

/-! ## Sort-order instances for the descending-length relation -/

instance : IsTotal String (fun a b => b.length ≤ a.length) :=
  ⟨fun a b => Nat.le_total b.length a.length⟩

instance : IsTrans String (fun a b => b.length ≤ a.length) :=
  ⟨fun _ _ _ hab hbc => le_trans hbc hab⟩

/-! ## Helper lemmas -/

/-- Escaping never produces the empty pattern from a non-empty token. -/
theorem escapeRegExp_eq_nil {l : List Char} (h : escapeRegExp l = []) : l = [] := by
  cases l with
  | nil => rfl
  | cons c rest =>
    by_cases hc : isSyntaxChar c <;> simp [escapeRegExp, hc] at h

/-- The escaped token is interpreted by the regular-expression engine as
the literal token: every syntax character arrives escaped, so nothing is
treated as pattern syntax. -/
theorem literalPatternChars_escapeRegExp (tok : List Char) :
    literalPatternChars (escapeRegExp tok) = some tok := by
  induction tok with
  | nil => rfl
  | cons c rest ih =>
    by_cases hc : isSyntaxChar c
    · simp [escapeRegExp, hc, literalPatternChars, ih]
    · have hbs : c ≠ '\\' := by
        intro e; subst e; simp [isSyntaxChar] at hc
      cases hE : escapeRegExp rest with
      | nil =>
        have : rest = [] := escapeRegExp_eq_nil hE
        subst this
        simp [escapeRegExp, hc, literalPatternChars, hbs]
      | cons e es =>
        rw [hE] at ih
        simp only [escapeRegExp, Bool.not_eq_true] at hc ⊢
        rw [hc]
        simp only [Bool.false_eq_true, if_false]
        rw [hE]
        simp [literalPatternChars, hbs, hc, ih]

/-- On a singleton mapping the detokenizer's replacement count is the
number of literal non-overlapping occurrences of the token. -/
theorem detokenize_singleton_count (text T V : String) :
    (Blindfold.detokenize text [(T, V)]).replacements_made =
      countMatches T.data text.data := by
  unfold Blindfold.detokenize Blindfold.sortedTokens
  simp only [List.map, List.insertionSort, List.orderedInsert, List.foldl]
  unfold Blindfold.detokenizeStep
  simp only [List.lookup, beq_self_eq_true, if_true]
  split
  · next h => simpa using h.symm
  · simp

/-! ## Claim theorems: the detokenizer -/

/-- Claim C1: `detokenize` processes tokens in order of descending token
length (the processing order is a permutation of the mapping's keys that
is pairwise sorted by descending length), so a token that is a textual
prefix of another never corrupts the longer token's occurrences; in
particular, for the mapping `<Person_1> => Bob, <Person_10> => Carol`
and the text `<Person_1> and <Person_10> are friends` the result text is
`Bob and Carol are friends` with `replacements_made = 2`. -/
theorem detokenize_longest_first :
    Blindfold.detokenize "<Person_1> and <Person_10> are friends"
      [("<Person_1>", "Bob"), ("<Person_10>", "Carol")] =
      ⟨"Bob and Carol are friends", 2⟩ ∧
    ∀ keys : List String,
      (Blindfold.sortedTokens keys).Sorted (fun a b => b.length ≤ a.length) ∧
      (Blindfold.sortedTokens keys).Perm keys := by
  refine ⟨by decide, fun keys => ⟨?_, ?_⟩⟩
  · exact List.sorted_insertionSort _ keys
  · exact List.perm_insertionSort _ keys

/-- Claim C2 (code bug): the detokenizer passes the mapped value raw as
the replacement string of `String.prototype.replace`, so ECMAScript
substitution sequences in the value are expanded instead of appearing
verbatim.  Evaluating the embedded code at the failing input: for text
`<Person_1>` and mapping `<Person_1> => a$&b`, the sequence `$&` in the
value expands to the matched token and the output text is
`a<Person_1>b`, not the verbatim value `a$&b` required by the claim. -/
theorem detokenize_dollar_sequence_expanded :
    Blindfold.detokenize "<Person_1>" [("<Person_1>", "a$&b")] =
      ⟨"a<Person_1>b", 1⟩ ∧
    (Blindfold.detokenize "<Person_1>" [("<Person_1>", "a$&b")]).text ≠ "a$&b" := by
  decide

/-- Claim C7: for a singleton mapping `T => V`, `replacements_made`
equals the number of literal non-overlapping occurrences of `T` in the
text — each substitution occurrence is counted, not each distinct
token. -/
theorem detokenize_count_eq_occurrences (text T V : String) (N : Nat)
    (h : countMatches T.data text.data = N) :
    (Blindfold.detokenize text [(T, V)]).replacements_made = N := by
  rw [← h]
  exact detokenize_singleton_count text T V

/-- Witness for claim C7 at a concrete input: `<A>` occurs twice in
`x <A> y <A>` and the detokenizer reports two replacements. -/
theorem detokenize_count_eq_occurrences_witness :
    countMatches "<A>".data "x <A> y <A>".data = 2 ∧
    (Blindfold.detokenize "x <A> y <A>" [("<A>", "Bob")]).replacements_made = 2 :=
  ⟨by decide, detokenize_count_eq_occurrences "x <A> y <A>" "<A>" "Bob" 2 (by decide)⟩

/-- Claim C8: a token is matched only as a literal substring, never as a
pattern: the escaped pattern the code builds from any token is
interpreted by the regular-expression engine as exactly the literal
token; on a singleton mapping the number of replacements is exactly the
number of literal occurrences; and at concrete metacharacter tokens
(`a.c`, `(a)`) only the literal occurrences are replaced (`abc` is not
matched by `a.c`, `a` is not matched by `(a)`). -/
theorem token_matched_literally :
    (∀ tok : List Char, literalPatternChars (escapeRegExp tok) = some tok) ∧
    (∀ text T V : String,
      (Blindfold.detokenize text [(T, V)]).replacements_made =
        countMatches T.data text.data) ∧
    Blindfold.detokenize "a.c and abc" [("a.c", "X")] = ⟨"X and abc", 1⟩ ∧
    Blindfold.detokenize "(a) b (c)" [("(a)", "Y")] = ⟨"Y b (c)", 1⟩ :=
  ⟨literalPatternChars_escapeRegExp, detokenize_singleton_count, by decide, by decide⟩

/-! ## Claim theorems: the request executor -/

/-- The retry loop stops at the first authentication failure: if every
attempt before index `n` has a retryable outcome and attempt `n` answers
with status 401 or 403, then from any attempt index at or before `n`
(with matching fuel) the loop reaches attempt `n`, makes no further
attempt, and throws `AuthenticationError`. -/
theorem requestGo_auth_stop {V : Type} (maxRetries : Nat) (retryDelay : ℚ)
    (transport : Nat → Blindfold.FetchResult V) (rand : Nat → ℚ)
    (n : Nat) (s : Nat) (ra : Option ℚ) (v : V)
    (hpre : ∀ k, k < n → Blindfold.retryableOutcome (transport k))
    (hauth : transport n = Blindfold.FetchResult.response s ra v)
    (hs : s = 401 ∨ s = 403) :
    ∀ fuel attempt, attempt + fuel = maxRetries + 1 → attempt ≤ n → n ≤ maxRetries →
      (Blindfold.requestGo maxRetries retryDelay transport rand attempt fuel).attempts =
        n + 1 ∧
      (Blindfold.requestGo maxRetries retryDelay transport rand attempt fuel).waits.length =
        n - attempt ∧
      (Blindfold.requestGo maxRetries retryDelay transport rand attempt fuel).result =
        Except.error Blindfold.SdkError.authentication := by
  intro fuel
  induction fuel with
  | zero => intro attempt hsum hle hn; omega
  | succ fuel ih =>
    intro attempt hsum hle hn
    by_cases heq : attempt = n
    · subst heq
      simp only [Blindfold.requestGo, hauth]
      rw [if_pos hs]
      exact ⟨rfl, by simp, rfl⟩
    · have hlt_n : attempt < n := by omega
      have hltm : attempt < maxRetries := by omega
      have hr := hpre attempt hlt_n
      cases htr : transport attempt with
      | response s2 ra2 v2 =>
        rw [htr] at hr
        have hs2 : s2 ∈ Blindfold.RETRYABLE_STATUS_CODES := hr
        have hcases : s2 = 429 ∨ s2 = 500 ∨ s2 = 502 ∨ s2 = 503 ∨ s2 = 504 := by
          simpa [Blindfold.RETRYABLE_STATUS_CODES] using hs2
        have h401 : ¬(s2 = 401 ∨ s2 = 403) := by
          rcases hcases with rfl | rfl | rfl | rfl | rfl <;> omega
        have hok : Blindfold.statusOk s2 = false := by
          rcases hcases with rfl | rfl | rfl | rfl | rfl <;> rfl
        have hrec := ih (attempt + 1) (by omega) (by omega) hn
        simp only [Blindfold.requestGo, htr]
        rw [if_neg h401, if_pos hok, if_pos ⟨hs2, hltm⟩]
        refine ⟨hrec.1, ?_, hrec.2.2⟩
        simp only [List.length_cons, hrec.2.1]
        omega
      | typeErrorFetch m =>
        have hrec := ih (attempt + 1) (by omega) (by omega) hn
        simp only [Blindfold.requestGo, htr]
        rw [if_pos hltm]
        refine ⟨hrec.1, ?_, hrec.2.2⟩
        simp only [List.length_cons, hrec.2.1]
        omega
      | thrownNetworkError m =>
        have hrec := ih (attempt + 1) (by omega) (by omega) hn
        simp only [Blindfold.requestGo, htr]
        rw [if_pos hltm]
        refine ⟨hrec.1, ?_, hrec.2.2⟩
        simp only [List.length_cons, hrec.2.1]
        omega
      | thrownOther m =>
        rw [htr] at hr
        exact absurd hr (by simp [Blindfold.retryableOutcome])

/-- Claim C5: a 401 or 403 response on any attempt `n` (reached after
retryable outcomes on every earlier attempt) terminates the executor
immediately after that attempt — `n + 1` transport attempts in total,
the `n` waits all preceding attempt `n`, no retry of the authentication
failure regardless of the remaining retry budget — with an
`AuthenticationError`.  With `n = 0` this is the spec scenario: a 401 on
the first attempt gives exactly one attempt and `Authentication`. -/
theorem request_no_retry_on_auth {V : Type} (maxRetries : Nat) (retryDelay : ℚ)
    (transport : Nat → Blindfold.FetchResult V) (rand : Nat → ℚ)
    (n : Nat) (s : Nat) (ra : Option ℚ) (v : V)
    (hn : n ≤ maxRetries)
    (hpre : ∀ k, k < n → Blindfold.retryableOutcome (transport k))
    (hauth : transport n = Blindfold.FetchResult.response s ra v)
    (hs : s = 401 ∨ s = 403) :
    (Blindfold.request maxRetries retryDelay transport rand).attempts = n + 1 ∧
    (Blindfold.request maxRetries retryDelay transport rand).waits.length = n ∧
    (Blindfold.request maxRetries retryDelay transport rand).result =
      Except.error Blindfold.SdkError.authentication := by
  have h := requestGo_auth_stop maxRetries retryDelay transport rand n s ra v
    hpre hauth hs (maxRetries + 1) 0 (by omega) (by omega) hn
  exact ⟨h.1, by simpa using h.2.1, h.2.2⟩

/-- Witness for claim C5 at two concrete runs with `maxRetries = 2`: a
401 on the first attempt gives exactly one attempt and the
authentication error; a 503 followed by a 401 on the second attempt
gives exactly two attempts and the authentication error — in both runs
the 401 is never retried despite remaining budget. -/
theorem request_no_retry_on_auth_witness :
    ((0 : Nat) ≤ 2 ∧
      (fun _ => Blindfold.FetchResult.response (V := Unit) 401 none ()) 0 =
        Blindfold.FetchResult.response 401 none () ∧
      ((401 : Nat) = 401 ∨ (401 : Nat) = 403)) ∧
    (Blindfold.request 2 (1 / 2)
      (fun _ => Blindfold.FetchResult.response (V := Unit) 401 none ())
      (fun _ => 0)).attempts = 1 ∧
    (Blindfold.request 2 (1 / 2)
      (fun _ => Blindfold.FetchResult.response (V := Unit) 401 none ())
      (fun _ => 0)).result = Except.error Blindfold.SdkError.authentication ∧
    ((1 : Nat) ≤ 2 ∧
      (∀ k, k < 1 → Blindfold.retryableOutcome
        ((fun k => if k = 0 then Blindfold.FetchResult.response (V := Unit) 503 none ()
          else Blindfold.FetchResult.response 401 none ()) k)) ∧
      (fun k => if k = 0 then Blindfold.FetchResult.response (V := Unit) 503 none ()
        else Blindfold.FetchResult.response 401 none ()) 1 =
        Blindfold.FetchResult.response 401 none ()) ∧
    (Blindfold.request 2 (1 / 2)
      (fun k => if k = 0 then Blindfold.FetchResult.response (V := Unit) 503 none ()
        else Blindfold.FetchResult.response 401 none ())
      (fun _ => 0)).attempts = 2 ∧
    (Blindfold.request 2 (1 / 2)
      (fun k => if k = 0 then Blindfold.FetchResult.response (V := Unit) 503 none ()
        else Blindfold.FetchResult.response 401 none ())
      (fun _ => 0)).result = Except.error Blindfold.SdkError.authentication := by
  have hpre1 : ∀ k, k < 1 → Blindfold.retryableOutcome
      ((fun k => if k = 0 then Blindfold.FetchResult.response (V := Unit) 503 none ()
        else Blindfold.FetchResult.response 401 none ()) k) := by
    intro k hk
    have hk0 : k = 0 := by omega
    subst hk0
    simp [Blindfold.retryableOutcome, Blindfold.RETRYABLE_STATUS_CODES]
  have h1 := request_no_retry_on_auth 2 (1 / 2)
    (fun _ => Blindfold.FetchResult.response (V := Unit) 401 none ())
    (fun _ => 0) 0 401 none () (by omega) (fun k hk => absurd hk (by omega))
    rfl (Or.inl rfl)
  have h2 := request_no_retry_on_auth 2 (1 / 2)
    (fun k => if k = 0 then Blindfold.FetchResult.response (V := Unit) 503 none ()
      else Blindfold.FetchResult.response 401 none ())
    (fun _ => 0) 1 401 none () (by omega) hpre1 rfl (Or.inl rfl)
  exact ⟨⟨by omega, rfl, Or.inl rfl⟩, h1.1, h1.2.2,
    ⟨by omega, hpre1, rfl⟩, by simpa using h2.1, h2.2.2⟩

/-- The retry loop under a uniformly retryable transport: starting at any
attempt index with matching fuel, the loop runs to exhaustion, making
one attempt per remaining budget unit with a wait between consecutive
attempts, and ends with the classified error of the final attempt. -/
theorem requestGo_exhaust {V : Type} (maxRetries : Nat) (retryDelay : ℚ)
    (transport : Nat → Blindfold.FetchResult V) (rand : Nat → ℚ)
    (h : ∀ n, n ≤ maxRetries → Blindfold.retryableOutcome (transport n)) :
    ∀ fuel attempt, 1 ≤ fuel → attempt + fuel = maxRetries + 1 →
      (Blindfold.requestGo maxRetries retryDelay transport rand attempt fuel).attempts =
        maxRetries + 1 ∧
      (Blindfold.requestGo maxRetries retryDelay transport rand attempt fuel).waits.length =
        maxRetries - attempt ∧
      (Blindfold.requestGo maxRetries retryDelay transport rand attempt fuel).result =
        Except.error (Blindfold.classifyFailure (transport maxRetries)) := by
  intro fuel
  induction fuel with
  | zero => intro attempt h1; omega
  | succ fuel ih =>
    intro attempt _ hsum
    have hatt : attempt ≤ maxRetries := by omega
    have hr := h attempt hatt
    cases htr : transport attempt with
    | response s ra v =>
      rw [htr] at hr
      have hs : s ∈ Blindfold.RETRYABLE_STATUS_CODES := hr
      have hcases : s = 429 ∨ s = 500 ∨ s = 502 ∨ s = 503 ∨ s = 504 := by
        simpa [Blindfold.RETRYABLE_STATUS_CODES] using hs
      have h401 : ¬(s = 401 ∨ s = 403) := by
        rcases hcases with rfl | rfl | rfl | rfl | rfl <;> omega
      have hok : Blindfold.statusOk s = false := by
        rcases hcases with rfl | rfl | rfl | rfl | rfl <;> rfl
      by_cases hlt : attempt < maxRetries
      · have hrec := ih (attempt + 1) (by omega) (by omega)
        simp only [Blindfold.requestGo, htr]
        rw [if_neg h401, if_pos hok, if_pos ⟨hs, hlt⟩]
        refine ⟨hrec.1, ?_, hrec.2.2⟩
        simp only [List.length_cons, hrec.2.1]
        omega
      · have heq : attempt = maxRetries := by omega
        subst heq
        simp only [Blindfold.requestGo, htr]
        rw [if_neg h401, if_pos hok, if_neg (fun hcon => hlt hcon.2)]
        refine ⟨rfl, by simp, ?_⟩
        simp only [Blindfold.classifyFailure, htr]
        rw [if_neg h401]
    | typeErrorFetch m =>
      by_cases hlt : attempt < maxRetries
      · have hrec := ih (attempt + 1) (by omega) (by omega)
        simp only [Blindfold.requestGo, htr]
        rw [if_pos hlt]
        refine ⟨hrec.1, ?_, hrec.2.2⟩
        simp only [List.length_cons, hrec.2.1]
        omega
      · have heq : attempt = maxRetries := by omega
        subst heq
        simp only [Blindfold.requestGo, htr]
        rw [if_neg hlt]
        exact ⟨rfl, by simp, by simp [Blindfold.classifyFailure, htr]⟩
    | thrownNetworkError m =>
      by_cases hlt : attempt < maxRetries
      · have hrec := ih (attempt + 1) (by omega) (by omega)
        simp only [Blindfold.requestGo, htr]
        rw [if_pos hlt]
        refine ⟨hrec.1, ?_, hrec.2.2⟩
        simp only [List.length_cons, hrec.2.1]
        omega
      · have heq : attempt = maxRetries := by omega
        subst heq
        simp only [Blindfold.requestGo, htr]
        rw [if_neg hlt]
        exact ⟨rfl, by simp, by simp [Blindfold.classifyFailure, htr]⟩
    | thrownOther m =>
      rw [htr] at hr
      exact absurd hr (by simp [Blindfold.retryableOutcome])

/-- Claim C4: when every attempt's outcome is classified retryable, the
executor makes exactly `maxRetries + 1` transport attempts with a
backoff wait between consecutive attempts, and then propagates the
classified error of the final attempt. -/
theorem request_retry_exhaustion {V : Type} (maxRetries : Nat) (retryDelay : ℚ)
    (transport : Nat → Blindfold.FetchResult V) (rand : Nat → ℚ)
    (h : ∀ n, n ≤ maxRetries → Blindfold.retryableOutcome (transport n)) :
    (Blindfold.request maxRetries retryDelay transport rand).attempts = maxRetries + 1 ∧
    (Blindfold.request maxRetries retryDelay transport rand).waits.length = maxRetries ∧
    (Blindfold.request maxRetries retryDelay transport rand).result =
      Except.error (Blindfold.classifyFailure (transport maxRetries)) := by
  have hmain := requestGo_exhaust maxRetries retryDelay transport rand h
    (maxRetries + 1) 0 (by omega) (by omega)
  exact ⟨hmain.1, by simpa using hmain.2.1, hmain.2.2⟩

/-- Witness for claim C4: transport always answering 503 with
`maxRetries = 2` gives exactly 3 attempts, 2 waits, and the `APIError`
with status 503 from the final attempt. -/
theorem request_retry_exhaustion_witness :
    (∀ n, n ≤ 2 → Blindfold.retryableOutcome
      ((fun _ => Blindfold.FetchResult.response (V := Unit) 503 none ()) n)) ∧
    (Blindfold.request 2 (1 / 2)
      (fun _ => Blindfold.FetchResult.response (V := Unit) 503 none ())
      (fun _ => 0)).attempts = 3 ∧
    (Blindfold.request 2 (1 / 2)
      (fun _ => Blindfold.FetchResult.response (V := Unit) 503 none ())
      (fun _ => 0)).waits.length = 2 ∧
    (Blindfold.request 2 (1 / 2)
      (fun _ => Blindfold.FetchResult.response (V := Unit) 503 none ())
      (fun _ => 0)).result = Except.error (Blindfold.SdkError.api 503 none) := by
  have hretry : ∀ n, n ≤ 2 → Blindfold.retryableOutcome
      ((fun _ => Blindfold.FetchResult.response (V := Unit) 503 none ()) n) :=
    fun n _ => by simp [Blindfold.retryableOutcome, Blindfold.RETRYABLE_STATUS_CODES]
  have h := request_retry_exhaustion 2 (1 / 2)
    (fun _ => Blindfold.FetchResult.response (V := Unit) 503 none ()) (fun _ => 0) hretry
  refine ⟨hretry, h.1, h.2.1, ?_⟩
  have := h.2.2
  simpa [Blindfold.classifyFailure] using this

/-- Claim C6: for attempt index `n` the computed wait (milliseconds) is
`retryDelay * 2 ^ n * 1000` plus a jitter of at most a tenth of that
base; except that an `APIError` with status 429 whose body carries a
numeric `retry_after` hint of `r` seconds waits exactly `r * 1000`
milliseconds (`r` seconds), with no backoff and no jitter, regardless of
the attempt index. -/
theorem retryWait_spec (retryDelay rand : ℚ) (attempt : Nat)
    (h0 : 0 ≤ retryDelay) (h1 : 0 ≤ rand) (h2 : rand < 1) :
    (∀ r : ℚ, Blindfold.retryWait retryDelay rand attempt (some (429, some r)) = r * 1000) ∧
    (∀ err : Option (Nat × Option ℚ), (∀ r : ℚ, err ≠ some (429, some r)) →
      ∃ jitter : ℚ, 0 ≤ jitter ∧
        jitter ≤ retryDelay * 2 ^ attempt * 1000 / 10 ∧
        Blindfold.retryWait retryDelay rand attempt err =
          retryDelay * 2 ^ attempt * 1000 + jitter) := by
  constructor
  · intro r
    rfl
  · intro err herr
    refine ⟨retryDelay * 2 ^ attempt * 1000 * (1 / 10) * rand, ?_, ?_, ?_⟩
    · positivity
    · have hb : (0 : ℚ) ≤ retryDelay * 2 ^ attempt * 1000 * (1 / 10) := by positivity
      calc retryDelay * 2 ^ attempt * 1000 * (1 / 10) * rand
          ≤ retryDelay * 2 ^ attempt * 1000 * (1 / 10) :=
            mul_le_of_le_one_right hb h2.le
        _ = retryDelay * 2 ^ attempt * 1000 / 10 := by ring
    · match err with
      | none => simp [Blindfold.retryWait, Blindfold.backoffDelay]
      | some (st, ra) =>
        by_cases hst : st = 429
        · subst hst
          match ra with
          | some r => exact absurd rfl (herr r)
          | none => simp [Blindfold.retryWait, Blindfold.backoffDelay]
        · simp [Blindfold.retryWait, Blindfold.backoffDelay, hst]

/-- Witness for claim C6: a 429 carrying a retry-after hint of 60 seconds
waits exactly 60000 milliseconds, i.e. 60 seconds, not the
exponential-backoff default. -/
theorem retryWait_spec_witness :
    ((0 : ℚ) ≤ 1 / 2 ∧ (0 : ℚ) ≤ 1 / 2 ∧ (1 / 2 : ℚ) < 1) ∧
    Blindfold.retryWait (1 / 2) (1 / 2) 0 (some (429, some 60)) = 60 * 1000 := by
  refine ⟨⟨by norm_num, by norm_num, by norm_num⟩, ?_⟩
  exact (retryWait_spec (1 / 2) (1 / 2) 0 (by norm_num) (by norm_num) (by norm_num)).1 60

/-! ## Claim theorems: the detokenize surfaces and the error surfaces -/

/-- Claim C3 counterexample: at the CLI surface detokenization is not
local — the `detokenize` command makes one transport call to the remote
`/detokenize` endpoint and returns whatever the server answers, which
need not equal the SDK's local result.  With a transport stub answering
`{text: WRONG, replacements_made: 42}`, the CLI command performs one
transport call (not zero) and its result differs from the SDK's local
computation on the same text and mapping. -/
theorem cli_detokenize_makes_transport_call :
    (cliDetokenizeCommand "<Person_1>" [("<Person_1>", "Bob")]
      (fun _ => SingleFetchResult.response 200 "" ⟨"WRONG", 42⟩)).transportCalls.length = 1 ∧
    (cliDetokenizeCommand "<Person_1>" [("<Person_1>", "Bob")]
      (fun _ => SingleFetchResult.response 200 "" ⟨"WRONG", 42⟩)).result =
      Except.ok (⟨"WRONG", 42⟩ : DetokenizeResponse) ∧
    Blindfold.detokenize "<Person_1>" [("<Person_1>", "Bob")] =
      (⟨"Bob", 1⟩ : DetokenizeResponse) ∧
    (⟨"WRONG", 42⟩ : DetokenizeResponse) ≠ (⟨"Bob", 1⟩ : DetokenizeResponse) := by
  exact ⟨rfl, rfl, by decide, by decide⟩

/-- Claim C3 (amended): only the SDK's `detokenize` is local — it makes
no transport call and returns the local algorithm's result — while the
CLI `detokenize` command and the MCP `blindfold_detokenize` tool each
make exactly one transport call posting `{text, mapping}` to the remote
`/detokenize` endpoint and surface that call's classified outcome. -/
theorem detokenize_surfaces (text : String) (mapping : List (String × String))
    (transport : Nat → SingleFetchResult DetokenizeResponse) :
    (sdkDetokenizeRun text mapping).transportCalls = [] ∧
    (sdkDetokenizeRun text mapping).result =
      Except.ok (Blindfold.detokenize text mapping) ∧
    (cliDetokenizeCommand text mapping transport).transportCalls =
      [("/detokenize", ⟨text, mapping⟩)] ∧
    (cliDetokenizeCommand text mapping transport).result = cliApiRequest (transport 0) ∧
    (mcpDetokenizeTool text mapping transport).transportCalls =
      [("/detokenize", ⟨text, mapping⟩)] ∧
    (mcpDetokenizeTool text mapping transport).result = mcpApiRequest (transport 0) :=
  ⟨rfl, rfl, rfl, rfl, rfl, rfl⟩

/-- Claim C9 counterexample: a 401 received through the MCP server's
`apiRequest` is thrown as a plain generic `Error` with the status only
interpolated into the message — not as an error of the Authentication
kind. -/
theorem mcp_401_is_generic_error :
    mcpApiRequest (SingleFetchResult.response (V := Unit) 401 "Unauthorized" ()) =
      Except.error (ThrownError.generic "Blindfold API error (401): Unauthorized") ∧
    resultKind (mcpApiRequest (SingleFetchResult.response (V := Unit) 401 "Unauthorized" ())) ≠
      some ErrorKind.authentication := by
  exact ⟨rfl, by decide⟩

/-- Claim C9 (amended): at the CLI and SDK surfaces each failure outcome
is surfaced as a distinguishable error kind with its fields inspectable
(401/403 as Authentication, other non-2xx as ApiError carrying the
status code and detail, a failed fetch as Network), while the MCP
server's `apiRequest` surfaces every non-2xx status — 401 and 403
included — as a plain generic `Error`, so the kind is not
programmatically distinguishable there. -/
theorem error_kinds_surfaced (s : Nat) (detail : String) :
    ((s = 401 ∨ s = 403) →
      cliApiRequest (V := Unit) (SingleFetchResult.response s detail ()) =
        Except.error (ThrownError.authentication cliAuthMessage)) ∧
    (Blindfold.statusOk s = false → ¬(s = 401 ∨ s = 403) →
      cliApiRequest (V := Unit) (SingleFetchResult.response s detail ()) =
        Except.error (ThrownError.apiError detail s)) ∧
    (∀ m : String, cliApiRequest (V := Unit) (SingleFetchResult.fetchThrew m) =
      Except.error (ThrownError.network m)) ∧
    ((s = 401 ∨ s = 403) → ∀ (ra : Option ℚ) (v : Unit),
      Blindfold.classifyFailure (Blindfold.FetchResult.response s ra v) =
        Blindfold.SdkError.authentication) ∧
    (Blindfold.statusOk s = false →
      resultKind (mcpApiRequest (V := Unit) (SingleFetchResult.response s detail ())) =
        some ErrorKind.generic) := by
  refine ⟨fun hs => ?_, fun hok h401 => ?_, fun m => rfl, fun hs ra v => ?_, fun hok => ?_⟩
  · simp only [cliApiRequest]
    rw [if_pos hs]
  · simp only [cliApiRequest]
    rw [if_neg h401, if_pos hok]
  · simp only [Blindfold.classifyFailure]
    rw [if_pos hs]
  · simp only [mcpApiRequest]
    rw [if_pos hok]
    rfl

/-- Witness for claim C9 (amended) at concrete inputs: the CLI surfaces
a 401 as the Authentication kind and a 500 as the ApiError kind, while
the MCP surface yields the generic kind for the same 500. -/
theorem error_kinds_surfaced_witness :
    ((401 : Nat) = 401 ∨ (401 : Nat) = 403) ∧
    cliApiRequest (V := Unit) (SingleFetchResult.response 401 "x" ()) =
      Except.error (ThrownError.authentication cliAuthMessage) ∧
    (Blindfold.statusOk 500 = false ∧ ¬((500 : Nat) = 401 ∨ (500 : Nat) = 403)) ∧
    cliApiRequest (V := Unit) (SingleFetchResult.response 500 "boom" ()) =
      Except.error (ThrownError.apiError "boom" 500) ∧
    resultKind (mcpApiRequest (V := Unit) (SingleFetchResult.response 500 "boom" ())) =
      some ErrorKind.generic := by
  refine ⟨Or.inl rfl, (error_kinds_surfaced 401 "x").1 (Or.inl rfl),
    ⟨by decide, by decide⟩, (error_kinds_surfaced 500 "boom").2.1 (by decide) (by decide),
    (error_kinds_surfaced 500 "boom").2.2.2.2 (by decide)⟩

/-- Claim C10: each invocation of the `apiRequest` returned by
`createApiRequest` — CLI and MCP alike — performs exactly one fetch,
sleeps no backoff wait, and resolves from that single attempt's outcome
alone, whatever that outcome is. -/
theorem apiRequest_single_attempt {V : Type} (transport : Nat → SingleFetchResult V) :
    (cliApiRequestRun transport).fetchCalls = 1 ∧
    (cliApiRequestRun transport).waits = [] ∧
    (cliApiRequestRun transport).result = cliApiRequest (transport 0) ∧
    (mcpApiRequestRun transport).fetchCalls = 1 ∧
    (mcpApiRequestRun transport).waits = [] ∧
    (mcpApiRequestRun transport).result = mcpApiRequest (transport 0) :=
  ⟨rfl, rfl, rfl, rfl, rfl, rfl⟩
